import Mathlib

/-!
Verification of the micro-ROV node firmware
(`src/arduino-master/metal-detector/metal-detector.ino`, the
"CUT DOWN APPLICATION DESIGNED FOR MICRO ROV" translation unit).

The firmware is shallowly embedded: the `Communication` class, the
`Thruster` class, `setup`, `loop` and `serialEvent` become Lean
functions over an explicit state.  External library calls are modelled
at the boundary:
* `Servo.writeMicroseconds` is recorded in a `hwWrites` log;
* `Serial.print`-flushed lines are recorded in a `sent` log;
* `EEPROM.read(0)` is the `role : Char` parameter;
* `millis()` is a `Nat` parameter of each cycle;
* ArduinoJson v5 `parseObject` is a `parse : String → Option JsonObj`
  parameter, and `root[key]` cast to `int` is `JsonObj.getInt`
  (yielding `0` when the key is absent, the ArduinoJson v5 default).

Braces inside wire-format strings are written with `\x7b` / `\x7d`
escapes.
-/

/-- One decoded flat JSON object: device-identifier keys to integer
values (the shape `loop` reads from ArduinoJson). -/
abbrev JsonObj := List (String × Int)

/-- Modelled from the ArduinoJson v5 library (external to the
repository): `root[key]` implicitly cast to `int` yields the stored
integer, or `0` when the key is absent. -/
def JsonObj.getInt (o : JsonObj) (key : String) : Int :=
  match o.find? (fun p => p.1 == key) with
  | some p => p.2
  | none => 0

/-- Helper for `containsText`: `true` iff `p` is an initial segment of
`s`.  Used only in theorem statements, not part of the firmware. -/
def leadsWith : List Char → List Char → Bool
  | [], _ => true
  | _ :: _, [] => false
  | p :: ps, c :: cs => p == c && leadsWith ps cs

/-- Helper for `containsText`: `true` iff `pat` occurs as a contiguous
segment of `s`. -/
def hasSub : List Char → List Char → Bool
  | [], pat => pat.isEmpty
  | c :: rest, pat => leadsWith pat (c :: rest) || hasSub rest pat

/-- Substring test used only in theorem statements (not part of the
firmware): `true` iff `pat` occurs inside `s`. -/
def containsText (s pat : String) : Bool :=
  hasSub s.data pat.data

/-- The exact text appended to the telemetry buffer by
`Communication::bufferError`. -/
def errorEntry (role : Char) (errorMessage : String) : String :=
  ",\"error_" ++ String.singleton role ++ "\":\"" ++ errorMessage ++ "\""

/-- The exact line printed by `Communication::sendStatus`. -/
def statusLine (arduinoID : String) (role : Char) (status : String) : String :=
  "\x7b\"deviceID\":\"" ++ arduinoID ++ "\",\"status_"
    ++ String.singleton role ++ "\":\"" ++ status ++ "\"\x7d"

/-- The exact line printed by `Communication::sendAll` given the
buffered `contents`. -/
def flushedLine (arduinoID contents : String) : String :=
  "\x7b\"deviceID\":\"" ++ arduinoID ++ "\"" ++ contents ++ "\x7d"

/-- State of the global `Communication communication` object:
`messageContents` is the accumulation buffer, `sent` logs every line
flushed to `Serial`. -/
structure Comm where
  messageContents : String
  sent : List String
deriving Repr, DecidableEq

/-- Method `Communication::bufferValue`: buffer a key/value pair to be sent
with the next load. -/
def Comm.bufferValue (c : Comm) (device incomingValue : String) : Comm :=
  { c with messageContents :=
      c.messageContents ++ ",\"" ++ device ++ "\":\"" ++ incomingValue ++ "\"" }

/-- Method `Communication::bufferError`: buffer an error entry keyed by the
role character read from `EEPROM`. -/
def Comm.bufferError (c : Comm) (role : Char) (errorMessage : String) : Comm :=
  { c with messageContents := c.messageContents ++ errorEntry role errorMessage }

/-- Method `Communication::sendStatus`: print a hardcoded one-status JSON
line. -/
def Comm.sendStatus (c : Comm) (arduinoID : String) (role : Char)
    (status : String) : Comm :=
  { c with sent := c.sent ++ [statusLine arduinoID role status] }

/-- Method `Communication::sendAll`: flush the buffered contents as one JSON
line and clear the buffer. -/
def Comm.sendAll (c : Comm) (arduinoID : String) : Comm :=
  { messageContents := "",
    sent := c.sent ++ [flushedLine arduinoID c.messageContents] }

/-- Constant `const int stoppedValue = 1500` of the `Thruster` class. -/
def stoppedValue : Int := 1500

/-- State of a `Thruster` object.  `hwWrites` logs every
`thruster.writeMicroseconds` call (the values actually applied to the
hardware), newest last. -/
structure Thruster where
  maxValue : Int
  minValue : Int
  currentValue : Int
  pin : Int
  partID : String
  hwWrites : List Int
deriving Repr, DecidableEq

/-- The `Thruster(inputPin, incomingPartID)` constructor: limits
1100/1900, starting value `stoppedValue`, and one hardware write of
`stoppedValue`. -/
def Thruster.init (inputPin : Int) (incomingPartID : String) : Thruster :=
  { maxValue := 1900, minValue := 1100, currentValue := stoppedValue,
    pin := inputPin, partID := incomingPartID, hwWrites := [stoppedValue] }

/-- Method `Thruster::setValue`: reject out-of-range values (buffering the
error, keeping the output at the same value), otherwise record and
apply the value.  Returns the new thruster state, the communication
state and the `int` return value of the C++ method. -/
def Thruster.setValue (t : Thruster) (c : Comm) (role : Char)
    (inputValue : Int) : Thruster × Comm × Int :=
  if inputValue < t.minValue ∨ inputValue > t.maxValue then
    (t, c.bufferError role "Incoming value out of range.", t.currentValue)
  else
    ({ t with currentValue := inputValue,
              hwWrites := t.hwWrites ++ [inputValue] }, c, inputValue)

/-- Method `Thruster::turnOff`: switch off in case of emergency. -/
def Thruster.turnOff (t : Thruster) : Thruster :=
  { t with currentValue := stoppedValue,
           hwWrites := t.hwWrites ++ [stoppedValue] }

/-- The global mutable state touched by `loop` and `serialEvent`. -/
structure NodeState where
  inputString : String
  stringComplete : Bool
  safetyActive : Bool
  lastMessage : Nat
  comm : Comm
  thr : Thruster
deriving Repr, DecidableEq

/-- Modulus of `unsigned long` on the Arduino (32-bit). -/
def UINT32_MOD : Nat := 4294967296

/-- The unsigned 32-bit computation `millis() - lastMessage` performed
by the watchdog check. -/
def elapsedSince (millis lastMessage : Nat) : Nat :=
  (millis % UINT32_MOD + (UINT32_MOD - lastMessage % UINT32_MOD)) % UINT32_MOD

/-- The watchdog tail of `loop`: if it has been too long since the last
message and the safety is not already active, activate the safety,
buffer and flush the timeout error, and turn the thruster off. -/
def watchdogCheck (arduinoID : String) (role : Char) (millis : Nat)
    (s : NodeState) : NodeState :=
  if 1000 < elapsedSince millis s.lastMessage ∧ s.safetyActive = false then
    { s with safetyActive := true,
             comm := (s.comm.bufferError role
               "No incoming data received for more than 1 second. Switching all devices off").sendAll
               arduinoID,
             thr := s.thr.turnOff }
  else s

/-- One call of `loop()`: parse a completed line if present (an early
`return` on parse failure skips the watchdog check), dispatch to the
thruster, flush telemetry, record the message time, then run the
watchdog check. -/
def loopStep (parse : String → Option JsonObj) (arduinoID : String)
    (role : Char) (millis : Nat) (s : NodeState) : NodeState :=
  if s.stringComplete then
    match parse s.inputString with
    | none =>
        { s with
          comm := (s.comm.bufferError role "JSON parsing failed.").sendAll arduinoID,
          inputString := "", stringComplete := false }
    | some root =>
        let s0 := { s with safetyActive := false }
        let s1 :=
          if arduinoID == "Ard_M" then
            let r := s0.thr.setValue s0.comm role (root.getInt "Thr_M")
            { s0 with thr := r.1, comm := r.2.1 }
          else
            { s0 with comm := (s0.comm.bufferError role
                "You are attempting to run Arduino M code on a different Arduino") }
        watchdogCheck arduinoID role millis
          { s1 with comm := s1.comm.sendAll arduinoID,
                    inputString := "", stringComplete := false,
                    lastMessage := millis }
  else
    watchdogCheck arduinoID role millis s

/-- One call of `serialEvent()`: consume available bytes, appending
non-terminator bytes to the line buffer; on `\n` or `\r` set the
completion flag and `break` (leaving the remaining bytes in the
hardware buffer).  Returns the new line buffer, the new completion
flag, and the unconsumed bytes. -/
def serialEventStep : List Char → String → Bool → String × Bool × List Char
  | [], buf, complete => (buf, complete, [])
  | c :: rest, buf, complete =>
      if c = '\n' ∨ c = '\r' then (buf, true, rest)
      else serialEventStep rest (buf.push c) complete

/-- Outcome of `setup()`: either the node entered the
`while(true){}` infinite empty loop (carrying the communication state
frozen at that point, with no `Thruster` ever created and `loop` never
run), or it is initialized with a ready `NodeState`. -/
inductive SetupResult where
  | halted (arduinoID : String) (comm : Comm)
  | ok (s : NodeState)
deriving Repr, DecidableEq

/-- Function `setup()`: resolve the identity from the persisted byte, announce
boot, halt forever on an identity mismatch (after only buffering the
error), otherwise create the thruster, flush, and announce activity.
The C++ globals start as `inputString = ""`, `stringComplete = false`,
`safetyActive = false`, `lastMessage = 0`. -/
def setup (eeprom0 : Char) : SetupResult :=
  let arduinoID := "Ard_" ++ String.singleton eeprom0
  let c1 := (Comm.mk "" []).sendStatus arduinoID eeprom0 "Arduino Booting."
  if arduinoID ≠ "Ard_M" then
    .halted arduinoID
      (c1.bufferError eeprom0
        "You are attempting to run Arduino M code on a different Arduino")
  else
    let c2 := (c1.sendAll arduinoID).sendStatus arduinoID eeprom0 "Arduino Active."
    .ok { inputString := "", stringComplete := false, safetyActive := false,
          lastMessage := 0, comm := c2, thr := Thruster.init 3 "Thr_M" }

/-- Set a freshly framed line into the state (what `serialEvent` has
done by the time `loop` sees `stringComplete`); a trace-building helper
for temporal claims. -/
def feedLine (l : String) (s : NodeState) : NodeState :=
  { s with inputString := l, stringComplete := true }

/-- Run a sequence of cycles, each presenting one framed line `l` at
time `t`; a trace-building helper for temporal claims. -/
def runFedCycles (parse : String → Option JsonObj) (arduinoID : String)
    (role : Char) : List (String × Nat) → NodeState → NodeState
  | [], s => s
  | (l, t) :: rest, s =>
      runFedCycles parse arduinoID role rest
        (loopStep parse arduinoID role t (feedLine l s))

-- Sample states for concrete evaluation.

/-- The node state right after a successful `setup 'M'`, with the boot
telemetry dropped from the log (only the mutable fields matter to the
cycle). -/
def bootState : NodeState :=
  { inputString := "", stringComplete := false, safetyActive := false,
    lastMessage := 0, comm := { messageContents := "", sent := [] },
    thr := Thruster.init 3 "Thr_M" }

-- Helper lemmas about the embedded definitions.

lemma elapsedSince_eq (m l : Nat) (h1 : l ≤ m) (h2 : m - l < UINT32_MOD) :
    elapsedSince m l = m - l := by
  unfold elapsedSince UINT32_MOD at *
  omega

lemma elapsedSince_self (t : Nat) : elapsedSince t t = 0 := by
  unfold elapsedSince UINT32_MOD
  omega

lemma watchdogCheck_no_retrip (arduinoID : String) (role : Char) (t : Nat)
    (s : NodeState) (h : s.safetyActive = true) :
    watchdogCheck arduinoID role t s = s := by
  simp [watchdogCheck, h]

/-- Claim C3: for every out-of-range command value addressed to the
registered output device (range 1100–1900), `Thruster::setValue`
leaves the thruster state entirely unchanged (so the prior value is
retained and no hardware write occurs), returns the prior value, and
buffers the "Incoming value out of range." error into the cycle's
telemetry buffer. -/
theorem setValue_out_of_range (t : Thruster) (c : Comm) (r : Char) (v : Int)
    (hmin : t.minValue = 1100) (hmax : t.maxValue = 1900)
    (hv : v < 1100 ∨ 1900 < v) :
    (t.setValue c r v).1 = t ∧
    (t.setValue c r v).2.2 = t.currentValue ∧
    (t.setValue c r v).2.1 = c.bufferError r "Incoming value out of range." := by
  have hcond : v < t.minValue ∨ v > t.maxValue := by omega
  simp [Thruster.setValue, hcond]

/-- Witness for `setValue_out_of_range` at value 2000 against the
freshly constructed thruster. -/
theorem setValue_out_of_range_witness :
    ((Thruster.init 3 "Thr_M").setValue (Comm.mk "" []) 'M' 2000).1
        = Thruster.init 3 "Thr_M" ∧
    ((Thruster.init 3 "Thr_M").setValue (Comm.mk "" []) 'M' 2000).2.2 = 1500 ∧
    ((Thruster.init 3 "Thr_M").setValue (Comm.mk "" []) 'M' 2000).2.1
        = (Comm.mk "" []).bufferError 'M' "Incoming value out of range." := by
  have h := setValue_out_of_range (Thruster.init 3 "Thr_M") (Comm.mk "" []) 'M'
    2000 (by decide) (by decide) (by decide)
  exact ⟨h.1, h.2.1.trans (by decide), h.2.2⟩

/-- Claim C4: when a completed line parses successfully, the cycle that
dispatches it ends with the safety-tripped flag cleared, whatever
values (or keys) the message carries, and whatever the node identity
string is. -/
theorem valid_message_clears_safety (parse : String → Option JsonObj)
    (arduinoID : String) (role : Char) (millis : Nat) (s : NodeState)
    (root : JsonObj)
    (hc : s.stringComplete = true) (hp : parse s.inputString = some root) :
    (loopStep parse arduinoID role millis s).safetyActive = false := by
  cases hM : arduinoID == "Ard_M" <;>
    simp [loopStep, hc, hp, hM, watchdogCheck, elapsedSince_self]

/-- Witness for `valid_message_clears_safety`: a tripped node receives
an (arbitrary-content) parsed message and is no longer tripped. -/
theorem valid_message_clears_safety_witness :
    (loopStep (fun _ => some [])
      "Ard_M" 'M' 50
      { bootState with stringComplete := true, safetyActive := true
      }).safetyActive = false :=
  valid_message_clears_safety _ "Ard_M" 'M' 50 _ [] rfl rfl

/-- Claim C5: a completed line that fails JSON decoding yields a cycle
that flushes exactly one telemetry line consisting of the node identity
and the single "JSON parsing failed." error entry, leaves the thruster
(value and hardware writes), the safety flag and the last-message
timestamp untouched (no dispatch), clears the line buffer, and returns
normally (the embedded `loop` is a total function, so the node keeps
cycling). -/
theorem parse_failure_single_error (parse : String → Option JsonObj)
    (arduinoID : String) (role : Char) (millis : Nat) (s : NodeState)
    (hc : s.stringComplete = true) (hp : parse s.inputString = none)
    (hmc : s.comm.messageContents = "") :
    (loopStep parse arduinoID role millis s).comm.sent
        = s.comm.sent ++ [flushedLine arduinoID
            (errorEntry role "JSON parsing failed.")] ∧
    (loopStep parse arduinoID role millis s).comm.messageContents = "" ∧
    (loopStep parse arduinoID role millis s).thr = s.thr ∧
    (loopStep parse arduinoID role millis s).safetyActive = s.safetyActive ∧
    (loopStep parse arduinoID role millis s).lastMessage = s.lastMessage ∧
    (loopStep parse arduinoID role millis s).inputString = "" ∧
    (loopStep parse arduinoID role millis s).stringComplete = false := by
  simp [loopStep, hc, hp, Comm.bufferError, Comm.sendAll, hmc,
    String.empty_append]

/-- Witness for `parse_failure_single_error` on a concrete malformed
line. -/
theorem parse_failure_single_error_witness :
    (loopStep (fun _ => none) "Ard_M" 'M' 70
        (feedLine "not json" bootState)).comm.sent
      = [flushedLine "Ard_M" (errorEntry 'M' "JSON parsing failed.")] ∧
    (loopStep (fun _ => none) "Ard_M" 'M' 70
        (feedLine "not json" bootState)).thr = bootState.thr := by
  have h := parse_failure_single_error (fun _ => none) "Ard_M" 'M' 70
    (feedLine "not json" bootState) rfl rfl rfl
  exact ⟨h.1.trans (by decide), h.2.2.1.trans (by decide)⟩

/-- Claim C1: on a silent cycle (no completed line) more than 1000 ms
after the last successfully parsed message, while not already tripped,
the watchdog sets the tripped flag, buffers the timeout error and
flushes it as one telemetry line, and forces the output device to the
neutral value 1500 (both as its current value and as an actual hardware
write) — and a subsequent cycle of the same continuous silence period
(at any later time) changes nothing at all, so the trip fires exactly
once per silence episode. -/
theorem watchdog_trip_fires_once (parse : String → Option JsonObj)
    (arduinoID : String) (role : Char) (s : NodeState) (t tNext : Nat)
    (hidle : s.stringComplete = false)
    (hsafe : s.safetyActive = false)
    (hmc : s.comm.messageContents = "")
    (h1 : s.lastMessage ≤ t) (h2 : t - s.lastMessage < UINT32_MOD)
    (h3 : 1000 < t - s.lastMessage) :
    (loopStep parse arduinoID role t s).safetyActive = true ∧
    (loopStep parse arduinoID role t s).comm.sent = s.comm.sent ++
      [flushedLine arduinoID (errorEntry role
        "No incoming data received for more than 1 second. Switching all devices off")] ∧
    (loopStep parse arduinoID role t s).thr.currentValue = 1500 ∧
    (loopStep parse arduinoID role t s).thr.hwWrites
        = s.thr.hwWrites ++ [1500] ∧
    loopStep parse arduinoID role tNext (loopStep parse arduinoID role t s)
        = loopStep parse arduinoID role t s := by
  have he : elapsedSince t s.lastMessage = t - s.lastMessage :=
    elapsedSince_eq _ _ h1 h2
  have hcond : 1000 < elapsedSince t s.lastMessage ∧ s.safetyActive = false :=
    ⟨by omega, hsafe⟩
  have hstep : loopStep parse arduinoID role t s =
      { s with safetyActive := true,
               comm := (s.comm.bufferError role
                 "No incoming data received for more than 1 second. Switching all devices off").sendAll
                 arduinoID,
               thr := s.thr.turnOff } := by
    simp only [loopStep, hidle, Bool.false_eq_true, if_false, watchdogCheck]
    rw [if_pos hcond]
  refine ⟨by rw [hstep], ?_, by rw [hstep]; simp [Thruster.turnOff, stoppedValue],
    by rw [hstep]; simp [Thruster.turnOff, stoppedValue], ?_⟩
  · rw [hstep]
    simp [Comm.bufferError, Comm.sendAll, hmc, String.empty_append]
  · rw [hstep]
    simp [loopStep, hidle, watchdogCheck]

/-- Witness for `watchdog_trip_fires_once`: from the boot state, a
silent cycle at 2000 ms trips the watchdog, and another at 3000 ms
changes nothing. -/
theorem watchdog_trip_fires_once_witness :
    (loopStep (fun _ => none) "Ard_M" 'M' 2000 bootState).safetyActive = true ∧
    (loopStep (fun _ => none) "Ard_M" 'M' 2000 bootState).comm.sent
        = bootState.comm.sent ++
      [flushedLine "Ard_M" (errorEntry 'M'
        "No incoming data received for more than 1 second. Switching all devices off")] ∧
    (loopStep (fun _ => none) "Ard_M" 'M' 2000 bootState).thr.currentValue = 1500 ∧
    (loopStep (fun _ => none) "Ard_M" 'M' 2000 bootState).thr.hwWrites
        = bootState.thr.hwWrites ++ [1500] ∧
    loopStep (fun _ => none) "Ard_M" 'M' 3000
        (loopStep (fun _ => none) "Ard_M" 'M' 2000 bootState)
      = loopStep (fun _ => none) "Ard_M" 'M' 2000 bootState :=
  watchdog_trip_fires_once (fun _ => none) "Ard_M" 'M' bootState 2000 3000
    rfl rfl rfl (by decide) (by decide) (by decide)

lemma arduinoID_of_role_eq_iff (b : Char) :
    ("Ard_" ++ String.singleton b) = "Ard_M" ↔ b = 'M' := by
  constructor
  · intro h
    have h2 := congrArg String.data h
    simp [String.data_append, String.singleton] at h2
    exact h2
  · rintro rfl
    rfl

/-- Claim C8: when the persisted identity byte is not `M` (the role this
firmware image was built for), `setup` ends in the `while(true){}`
infinite empty loop: the result is `SetupResult.halted`, which carries
no `NodeState` and no `Thruster` (so the main cycle never runs, no
dispatch or telemetry flush ever happens afterwards, and no output
device is ever created or driven), and the communication state frozen
there has flushed only the "Arduino Booting." status — the buffered
identity-mismatch error sits in `messageContents`, never sent, so the
failure is externally invisible. -/
theorem identity_mismatch_silent_halt (b : Char) (hb : b ≠ 'M') :
    setup b = SetupResult.halted ("Ard_" ++ String.singleton b)
      { messageContents := errorEntry b
          "You are attempting to run Arduino M code on a different Arduino",
        sent := [statusLine ("Ard_" ++ String.singleton b) b
          "Arduino Booting."] } := by
  have hne : ("Ard_" ++ String.singleton b) ≠ "Ard_M" :=
    fun h => hb ((arduinoID_of_role_eq_iff b).mp h)
  simp [setup, hne, Comm.sendStatus, Comm.bufferError, String.empty_append]

/-- Witness for `identity_mismatch_silent_halt` with the persisted
byte `T`. -/
theorem identity_mismatch_silent_halt_witness :
    setup 'T' = SetupResult.halted ("Ard_" ++ String.singleton 'T')
      { messageContents := errorEntry 'T'
          "You are attempting to run Arduino M code on a different Arduino",
        sent := [statusLine ("Ard_" ++ String.singleton 'T') 'T'
          "Arduino Booting."] } :=
  identity_mismatch_silent_halt 'T' (by decide)

/-- The boot state with the line `{"Thr_M": 1600}` framed and
complete. -/
def echoState : NodeState := feedLine "\x7b\"Thr_M\": 1600\x7d" bootState

/-- Claim C2 counterexample: sending `Thr_M = 1600` to a role-M node does
apply 1600 to the device, but the telemetry line flushed for that cycle
is exactly the bare identity object: it does not echo the value under
the device's identifier (`loop` never calls `bufferValue`), refuting
the claimed round trip. -/
theorem dispatch_echo_counterexample :
    (loopStep (fun _ => some [("Thr_M", (1600 : Int))]) "Ard_M" 'M' 100
        echoState).thr.currentValue = 1600 ∧
    (loopStep (fun _ => some [("Thr_M", (1600 : Int))]) "Ard_M" 'M' 100
        echoState).comm.sent = ["\x7b\"deviceID\":\"Ard_M\"\x7d"] ∧
    containsText "\x7b\"deviceID\":\"Ard_M\"\x7d" "Thr_M" = false ∧
    containsText "\x7b\"deviceID\":\"Ard_M\"\x7d" "1600" = false := by
  decide

/-- Claim C2 amended: for every in-range command value `v` carried under
the key `Thr_M` in a successfully parsed message to the role-M node,
dispatch applies exactly `v` to the physical device (one hardware write
of `v`) and updates the device's current value to `v`; the telemetry
line flushed for the cycle is the bare identity object with no error
keys — and, unlike the original claim, no echo of `v`. -/
theorem dispatch_applies_in_range_value (parse : String → Option JsonObj)
    (role : Char) (millis : Nat) (s : NodeState) (root : JsonObj) (v : Int)
    (hc : s.stringComplete = true) (hp : parse s.inputString = some root)
    (hroot : root.getInt "Thr_M" = v)
    (hmin : s.thr.minValue = 1100) (hmax : s.thr.maxValue = 1900)
    (hlo : 1100 ≤ v) (hhi : v ≤ 1900)
    (hmc : s.comm.messageContents = "") :
    (loopStep parse "Ard_M" role millis s).thr.currentValue = v ∧
    (loopStep parse "Ard_M" role millis s).thr.hwWrites
        = s.thr.hwWrites ++ [v] ∧
    (loopStep parse "Ard_M" role millis s).comm.sent
        = s.comm.sent ++ [flushedLine "Ard_M" ""] := by
  have hcond : ¬(v < s.thr.minValue ∨ v > s.thr.maxValue) := by
    push_neg
    omega
  simp [loopStep, hc, hp, hroot, Thruster.setValue, hcond, watchdogCheck,
    elapsedSince_self, Comm.sendAll, hmc]

/-- Witness for `dispatch_applies_in_range_value` at value 1600. -/
theorem dispatch_applies_in_range_value_witness :
    (loopStep (fun _ => some [("Thr_M", (1600 : Int))]) "Ard_M" 'M' 100
        echoState).thr.currentValue = 1600 ∧
    (loopStep (fun _ => some [("Thr_M", (1600 : Int))]) "Ard_M" 'M' 100
        echoState).thr.hwWrites = echoState.thr.hwWrites ++ [1600] ∧
    (loopStep (fun _ => some [("Thr_M", (1600 : Int))]) "Ard_M" 'M' 100
        echoState).comm.sent
      = echoState.comm.sent ++ [flushedLine "Ard_M" ""] :=
  dispatch_applies_in_range_value (fun _ => some [("Thr_M", (1600 : Int))])
    'M' 100 echoState [("Thr_M", (1600 : Int))] 1600
    rfl rfl (by decide) (by decide) (by decide) (by decide) (by decide) rfl

/-- The boot state with the line `{"Thr_FP": 1600}` (a key this role
does not own) framed and complete. -/
def unknownKeyState : NodeState := feedLine "\x7b\"Thr_FP\": 1600\x7d" bootState

/-- Claim C7 counterexample: sending the foreign key `Thr_FP` to the
role-M node mutates no device, but the dispatcher does not reject the
key with an "output device ID is not valid" error: the only flushed
telemetry entry is "Incoming value out of range." (the fixed lookup
`root["Thr_M"]` defaults to 0 for the absent key), and no flushed text
contains "not valid", refuting the claimed error taxonomy. -/
theorem unknown_key_counterexample :
    (loopStep (fun _ => some [("Thr_FP", (1600 : Int))]) "Ard_M" 'M' 100
        unknownKeyState).thr = bootState.thr ∧
    (loopStep (fun _ => some [("Thr_FP", (1600 : Int))]) "Ard_M" 'M' 100
        unknownKeyState).comm.sent
      = [flushedLine "Ard_M" (errorEntry 'M' "Incoming value out of range.")] ∧
    containsText
      (flushedLine "Ard_M" (errorEntry 'M' "Incoming value out of range."))
      "not valid" = false := by
  decide

/-- Claim C7 amended: a successfully parsed message none of whose keys is
the single registered identifier `Thr_M` mutates no device, and the
cycle's telemetry carries the single error entry "Incoming value out of
range." (the dispatcher reads only `Thr_M`, whose absence defaults to
the out-of-range value 0); no invalid-device-identifier error exists in
this firmware. -/
theorem unknown_key_out_of_range_error (parse : String → Option JsonObj)
    (role : Char) (millis : Nat) (s : NodeState) (root : JsonObj)
    (hc : s.stringComplete = true) (hp : parse s.inputString = some root)
    (hnone : root.find? (fun p => p.1 == "Thr_M") = none)
    (hmin : s.thr.minValue = 1100)
    (hmc : s.comm.messageContents = "") :
    (loopStep parse "Ard_M" role millis s).thr = s.thr ∧
    (loopStep parse "Ard_M" role millis s).comm.sent
        = s.comm.sent ++ [flushedLine "Ard_M"
            (errorEntry role "Incoming value out of range.")] := by
  have hget : root.getInt "Thr_M" = 0 := by
    simp [JsonObj.getInt, hnone]
  have hcond : (0 : Int) < s.thr.minValue ∨ (0 : Int) > s.thr.maxValue :=
    Or.inl (by omega)
  simp [loopStep, hc, hp, hget, Thruster.setValue, hcond, watchdogCheck,
    elapsedSince_self, Comm.sendAll, Comm.bufferError, hmc,
    String.empty_append]

/-- Witness for `unknown_key_out_of_range_error` with the foreign key
`Thr_FP`. -/
theorem unknown_key_out_of_range_error_witness :
    (loopStep (fun _ => some [("Thr_FP", (1600 : Int))]) "Ard_M" 'M' 100
        unknownKeyState).thr = unknownKeyState.thr ∧
    (loopStep (fun _ => some [("Thr_FP", (1600 : Int))]) "Ard_M" 'M' 100
        unknownKeyState).comm.sent
      = unknownKeyState.comm.sent ++ [flushedLine "Ard_M"
          (errorEntry 'M' "Incoming value out of range.")] :=
  unknown_key_out_of_range_error (fun _ => some [("Thr_FP", (1600 : Int))])
    'M' 100 unknownKeyState [("Thr_FP", (1600 : Int))]
    rfl rfl (by decide) (by decide) rfl

/-- The invariant of claim C6: the registered range is 1100–1900, the
current value is inside it or exactly neutral, and every value ever
applied to the hardware was inside it or exactly neutral. -/
def thrusterInv (t : Thruster) : Prop :=
  t.minValue = 1100 ∧ t.maxValue = 1900 ∧
  ((1100 ≤ t.currentValue ∧ t.currentValue ≤ 1900) ∨ t.currentValue = 1500) ∧
  ∀ w ∈ t.hwWrites, (1100 ≤ w ∧ w ≤ 1900) ∨ w = 1500

lemma thrusterInv_init (pin : Int) (pid : String) :
    thrusterInv (Thruster.init pin pid) := by
  simp [thrusterInv, Thruster.init, stoppedValue]

lemma thrusterInv_setValue (t : Thruster) (c : Comm) (r : Char) (v : Int)
    (h : thrusterInv t) : thrusterInv (t.setValue c r v).1 := by
  obtain ⟨hmin, hmax, hcur, hw⟩ := h
  unfold Thruster.setValue
  split
  · exact ⟨hmin, hmax, hcur, hw⟩
  · next hcond =>
      push_neg at hcond
      dsimp only
      refine ⟨hmin, hmax, Or.inl ⟨?_, ?_⟩, ?_⟩
      · show (1100 : Int) ≤ v
        omega
      · show v ≤ (1900 : Int)
        omega
      intro w hw2
      rcases List.mem_append.mp hw2 with hmem | hmem
      · exact hw w hmem
      · simp only [List.mem_singleton] at hmem
        subst hmem
        exact Or.inl ⟨by omega, by omega⟩

lemma thrusterInv_turnOff (t : Thruster) (h : thrusterInv t) :
    thrusterInv t.turnOff := by
  obtain ⟨hmin, hmax, _, hw⟩ := h
  refine ⟨hmin, hmax, Or.inr rfl, ?_⟩
  intro w hw2
  rcases List.mem_append.mp hw2 with hmem | hmem
  · exact hw w hmem
  · simp only [List.mem_singleton] at hmem
    subst hmem
    exact Or.inr rfl

lemma thrusterInv_watchdogCheck (aid : String) (r : Char) (ms : Nat)
    (s : NodeState) (h : thrusterInv s.thr) :
    thrusterInv (watchdogCheck aid r ms s).thr := by
  unfold watchdogCheck
  split
  · exact thrusterInv_turnOff _ h
  · exact h

lemma thrusterInv_loopStep (parse : String → Option JsonObj) (aid : String)
    (r : Char) (ms : Nat) (s : NodeState) (h : thrusterInv s.thr) :
    thrusterInv (loopStep parse aid r ms s).thr := by
  unfold loopStep
  split
  · cases hp : parse s.inputString with
    | none => exact h
    | some root =>
        dsimp only
        apply thrusterInv_watchdogCheck
        split
        · exact thrusterInv_setValue _ _ _ _ h
        · exact h
  · exact thrusterInv_watchdogCheck aid r ms s h

/-- Claim C6: after boot initialization and after every operation — a
`setValue` call with any input, a `turnOff`, or a whole `loop` cycle
(which covers the watchdog trip) — the output device's current value
lies within the inclusive valid range 1100–1900 or equals the neutral
value 1500, and every value ever applied to the hardware satisfies the
same bound. -/
theorem output_value_invariant :
    (∀ (pin : Int) (pid : String), thrusterInv (Thruster.init pin pid)) ∧
    (∀ (t : Thruster) (c : Comm) (r : Char) (v : Int),
        thrusterInv t → thrusterInv (t.setValue c r v).1) ∧
    (∀ t : Thruster, thrusterInv t → thrusterInv t.turnOff) ∧
    (∀ (parse : String → Option JsonObj) (aid : String) (r : Char) (ms : Nat)
        (s : NodeState),
        thrusterInv s.thr → thrusterInv (loopStep parse aid r ms s).thr) :=
  ⟨thrusterInv_init, thrusterInv_setValue, thrusterInv_turnOff,
    thrusterInv_loopStep⟩

/-- Witness for `output_value_invariant`: the freshly built thruster
satisfies the invariant, and it is preserved through a rejected
`setValue 5`, a `turnOff`, and a tripping watchdog cycle. -/
theorem output_value_invariant_witness :
    thrusterInv ((Thruster.init 3 "Thr_M").setValue (Comm.mk "" []) 'M' 5).1 ∧
    thrusterInv (Thruster.init 3 "Thr_M").turnOff ∧
    thrusterInv (loopStep (fun _ => none) "Ard_M" 'M' 2000 bootState).thr :=
  ⟨output_value_invariant.2.1 _ _ _ _ (output_value_invariant.1 3 "Thr_M"),
   output_value_invariant.2.2.1 _ (output_value_invariant.1 3 "Thr_M"),
   output_value_invariant.2.2.2 _ _ _ _ _ (output_value_invariant.1 3 "Thr_M")⟩

lemma watchdogCheck_stringComplete (aid : String) (r : Char) (ms : Nat)
    (s : NodeState) :
    (watchdogCheck aid r ms s).stringComplete = s.stringComplete := by
  unfold watchdogCheck
  split
  · rfl
  · rfl

lemma loopStep_stringComplete_false (parse : String → Option JsonObj)
    (aid : String) (r : Char) (ms : Nat) (s : NodeState) :
    (loopStep parse aid r ms s).stringComplete = false := by
  unfold loopStep
  split
  · cases hp : parse s.inputString with
    | none => rfl
    | some root =>
        dsimp only
        rw [watchdogCheck_stringComplete]
  · next hsc =>
      simp only [Bool.not_eq_true] at hsc
      rw [watchdogCheck_stringComplete]
      exact hsc

lemma serialEventStep_stops (term : Char) (post : List Char)
    (hterm : term = '\n' ∨ term = '\r') :
    ∀ (pre : List Char) (buf : String) (b : Bool),
      (∀ c ∈ pre, c ≠ '\n' ∧ c ≠ '\r') →
      serialEventStep (pre ++ term :: post) buf b
        = (String.mk (buf.data ++ pre), true, post)
  | [], buf, b, _ => by
      simp [serialEventStep, hterm]
  | c :: cs, buf, b, hpre => by
      have hc := hpre c (List.mem_cons_self c cs)
      have hrec := serialEventStep_stops term post hterm cs (buf.push c) b
        (fun x hx => hpre x (List.mem_cons_of_mem c hx))
      simp only [List.cons_append, serialEventStep]
      rw [if_neg (not_or.mpr hc)]
      have hdata : buf.data ++ c :: cs = (buf.push c).data ++ cs := by
        simp [String.push]
      rw [hdata]
      exact hrec

/-- Claim C9: once the framer hits a line terminator it marks the line
complete and stops consuming: within one `serialEvent` call, every byte
after the terminator is left unconsumed and none of it reaches the line
buffer (the buffer receives exactly the pre-terminator bytes); and
every `loop` cycle ends with `stringComplete = false` — a completed
line is always drained and cleared by the parser before the framer runs
again, so bytes arriving while a completed line awaits parsing are
never mixed into it. -/
theorem framer_no_append_after_complete (pre post : List Char) (buf : String)
    (b : Bool) (term : Char)
    (hterm : term = '\n' ∨ term = '\r')
    (hpre : ∀ c ∈ pre, c ≠ '\n' ∧ c ≠ '\r') :
    serialEventStep (pre ++ term :: post) buf b
        = (String.mk (buf.data ++ pre), true, post) ∧
    (∀ (parse : String → Option JsonObj) (aid : String) (r : Char) (ms : Nat)
        (s : NodeState), (loopStep parse aid r ms s).stringComplete = false) :=
  ⟨serialEventStep_stops term post hterm pre buf b hpre,
   loopStep_stringComplete_false⟩

/-- Witness for `framer_no_append_after_complete`: bytes `a b \n c`
complete the line at `ab`, leave `c` unconsumed, and a parse-failure
cycle clears the completion flag. -/
theorem framer_no_append_after_complete_witness :
    serialEventStep (('a' :: 'b' :: []) ++ '\n' :: ('c' :: [])) "x" false
        = (String.mk ("x".data ++ ('a' :: 'b' :: [])), true, ('c' :: [])) ∧
    (loopStep (fun _ => none) "Ard_M" 'M' 5
        (feedLine "ab" bootState)).stringComplete = false :=
  ⟨(framer_no_append_after_complete ('a' :: 'b' :: []) ('c' :: []) "x" false
      '\n' (Or.inl rfl) (by decide)).1,
   (framer_no_append_after_complete ('a' :: 'b' :: []) ('c' :: []) "x" false
      '\n' (Or.inl rfl) (by decide)).2 (fun _ => none) "Ard_M" 'M' 5
      (feedLine "ab" bootState)⟩

lemma loopStep_parse_fail_fields (parse : String → Option JsonObj)
    (aid : String) (r : Char) (ms : Nat) (s : NodeState)
    (hc : s.stringComplete = true) (hp : parse s.inputString = none) :
    (loopStep parse aid r ms s).lastMessage = s.lastMessage ∧
    (loopStep parse aid r ms s).safetyActive = s.safetyActive ∧
    (loopStep parse aid r ms s).thr = s.thr := by
  simp [loopStep, hc, hp]

lemma runFedCycles_malformed (parse : String → Option JsonObj) (aid : String)
    (r : Char) :
    ∀ (lines : List (String × Nat)) (s : NodeState),
      (∀ p ∈ lines, parse p.1 = none) → s.stringComplete = false →
      (runFedCycles parse aid r lines s).lastMessage = s.lastMessage ∧
      (runFedCycles parse aid r lines s).safetyActive = s.safetyActive ∧
      (runFedCycles parse aid r lines s).thr = s.thr ∧
      (runFedCycles parse aid r lines s).stringComplete = false
  | [], s, _, hsc => ⟨rfl, rfl, rfl, hsc⟩
  | (l, t0) :: rest, s, hfail, hsc => by
      have hl : parse l = none := hfail (l, t0) (List.mem_cons_self _ _)
      have hone := loopStep_parse_fail_fields parse aid r t0 (feedLine l s)
        rfl hl
      have ih := runFedCycles_malformed parse aid r rest
        (loopStep parse aid r t0 (feedLine l s))
        (fun p hp => hfail p (List.mem_cons_of_mem _ hp))
        (loopStep_stringComplete_false parse aid r t0 (feedLine l s))
      simp only [runFedCycles]
      exact ⟨ih.1.trans hone.1, ih.2.1.trans hone.2.1, ih.2.2.1.trans hone.2.2,
        ih.2.2.2⟩

/-- Claim C10: processing any stream of malformed (parse-failing) lines
leaves the last-message timestamp exactly where the last successful
parse put it (and the safety flag and the thruster untouched), so a
subsequent silent cycle more than 1000 ms after that timestamp still
trips the watchdog, forcing the output to neutral. -/
theorem malformed_stream_watchdog_still_trips
    (parse : String → Option JsonObj) (aid : String) (r : Char)
    (lines : List (String × Nat)) (t : Nat) (s : NodeState)
    (hfail : ∀ p ∈ lines, parse p.1 = none)
    (hsc : s.stringComplete = false)
    (hsafe : s.safetyActive = false)
    (h1 : s.lastMessage ≤ t) (h2 : t - s.lastMessage < UINT32_MOD)
    (h3 : 1000 < t - s.lastMessage) :
    (runFedCycles parse aid r lines s).lastMessage = s.lastMessage ∧
    (loopStep parse aid r t (runFedCycles parse aid r lines s)).safetyActive
        = true ∧
    (loopStep parse aid r t
        (runFedCycles parse aid r lines s)).thr.currentValue = 1500 := by
  obtain ⟨hlm, hsa, hthr, hsc1⟩ :=
    runFedCycles_malformed parse aid r lines s hfail hsc
  have hcond : 1000 < elapsedSince t (runFedCycles parse aid r lines s).lastMessage
      ∧ (runFedCycles parse aid r lines s).safetyActive = false := by
    rw [hlm, hsa, elapsedSince_eq _ _ h1 h2]
    exact ⟨h3, hsafe⟩
  have hstep : loopStep parse aid r t (runFedCycles parse aid r lines s)
      = watchdogCheck aid r t (runFedCycles parse aid r lines s) := by
    simp [loopStep, hsc1]
  rw [hstep]
  unfold watchdogCheck
  rw [if_pos hcond]
  exact ⟨hlm, rfl, by simp [Thruster.turnOff, stoppedValue]⟩

/-- Witness for `malformed_stream_watchdog_still_trips`: two malformed
lines at 300 ms and 700 ms do not feed the watchdog, which trips on the
silent cycle at 1200 ms. -/
theorem malformed_stream_watchdog_still_trips_witness :
    (runFedCycles (fun _ => none) "Ard_M" 'M'
        [("bad", 300), ("also bad", 700)] bootState).lastMessage
      = bootState.lastMessage ∧
    (loopStep (fun _ => none) "Ard_M" 'M' 1200
        (runFedCycles (fun _ => none) "Ard_M" 'M'
          [("bad", 300), ("also bad", 700)] bootState)).safetyActive = true ∧
    (loopStep (fun _ => none) "Ard_M" 'M' 1200
        (runFedCycles (fun _ => none) "Ard_M" 'M'
          [("bad", 300), ("also bad", 700)] bootState)).thr.currentValue
      = 1500 :=
  malformed_stream_watchdog_still_trips (fun _ => none) "Ard_M" 'M'
    [("bad", 300), ("also bad", 700)] 1200 bootState
    (fun p _ => rfl) rfl rfl (by decide) (by decide) (by decide)
